import Mathlib

/-!
Shallow embedding of the ticket routes of the IT ticketing system
(server/routes/tickets.js) and proofs about the ticket lifecycle,
the ticket-number allocator and the access-scoping rules.

The relational store is modelled as explicit lists of rows; each route
handler becomes a pure function from the caller context, the request data
and the database state to a response outcome paired with the new state.
Statements executed through a transaction (ticket creation) roll back as a
whole on failure; statements executed directly on the pool (status update,
note, delete) commit individually, exactly as autocommit does.  Failure of
an individual SQL statement or of the filesystem unlink is injected through
explicit failure-point parameters.
-/

namespace ITS

/-- Ticket status enumeration; the exact strings of the schema are given by
`Status.toStr`. -/
inductive Status
  | pending
  | inProgress
  | onHold
  | done
  | closed
deriving DecidableEq

/-- The exact status strings used by the API and the schema. -/
def Status.toStr : Status → String
  | .pending => "Pending"
  | .inProgress => "In Progress"
  | .onHold => "On Hold"
  | .done => "Done"
  | .closed => "Closed"

/-- A row of the `tickets` table.  `created_year` models `YEAR(created_at)`
and `created_at` the creation timestamp used for ordering. -/
structure Ticket where
  id : Nat
  ticket_number : String
  department : String
  equipment_type : String
  problem_description : String
  issue_date : String
  photo_url : Option String
  status : Status
  created_by : Nat
  created_year : Nat
  created_at : Nat
deriving DecidableEq

/-- A row of the `ticket_updates` table (the audit trail). -/
structure TicketUpdate where
  id : Nat
  ticket_id : Nat
  user_id : Nat
  update_type : String
  old_value : Option String
  new_value : Option String
  notes : Option String
  created_at : Nat
deriving DecidableEq

/-- Database state plus the uploaded photo files present on disk.
`nextTicketId` / `nextUpdateId` model the AUTO_INCREMENT counters. -/
structure DB where
  tickets : List Ticket
  updates : List TicketUpdate
  files : List String
  nextTicketId : Nat
  nextUpdateId : Nat
deriving DecidableEq

/-- The authenticated caller as placed on `req.user` by the auth
middleware: id, role string and profile department. -/
structure UserCtx where
  id : Nat
  role : String
  department : String
deriving DecidableEq

/-- Body of a ticket-creation request after express-validator accepted it
(`department` optional, the rest present). -/
structure CreateBody where
  department : Option String
  equipment_type : String
  problem_description : String
  issue_date : String
deriving DecidableEq

/-! ### JavaScript string primitives used by the handlers -/

/-- ASCII lowercasing of one character, as `toLowerCase` does on the
ASCII role strings of this system. -/
def lowerChar (c : Char) : Char :=
  if 'A' ≤ c ∧ c ≤ 'Z' then Char.ofNat (c.toNat + 32) else c

/-- Model of `s.toLowerCase()` on ASCII strings. -/
def strLower (s : String) : String :=
  String.mk (s.data.map lowerChar)

/-- Lexicographic comparison of character lists by code point; the order
MySQL uses on the ASCII ticket-number strings. -/
def charListLt : List Char → List Char → Bool
  | [], [] => false
  | [], _ :: _ => true
  | _ :: _, [] => false
  | a :: as, b :: bs => if a < b then true else if b < a then false else charListLt as bs

/-- String comparison used by `ORDER BY ticket_number`. -/
def strLtb (a b : String) : Bool :=
  charListLt a.data b.data

/-- Whitespace for JS `trim` / `parseInt`. -/
def isWs (c : Char) : Bool :=
  c == ' ' || c == '\t' || c == '\n' || c == '\r'

/-- Model of `s.trim()`. -/
def jsTrim (s : String) : String :=
  String.mk (((s.data.dropWhile isWs).reverse.dropWhile isWs).reverse)

/-- JS `String.prototype.replace` with a plain-string pattern replaces only
the first occurrence; with an empty replacement it deletes it.  Auxiliary
version on character lists. -/
def replFirstAux (pat : List Char) : List Char → List Char
  | [] => if pat.isPrefixOf ([] : List Char) then ([] : List Char).drop pat.length else []
  | c :: cs =>
    if pat.isPrefixOf (c :: cs) then (c :: cs).drop pat.length
    else c :: replFirstAux pat cs

/-- Model of `s.replace(pat, '')` in JavaScript: delete the first occurrence of
`pat` in `s`. -/
def jsReplaceFirst (s pat : String) : String :=
  String.mk (replFirstAux pat.data s.data)

/-- Model of `parseInt(s, 10)` in JavaScript: skip leading whitespace, read an
optional sign and then the longest digit run; `NaN` (here `none`) when no
digit follows. -/
def jsParseInt (s : String) : Option Int :=
  let l := s.data.dropWhile isWs
  let signAndRest : Int × List Char :=
    match l with
    | '-' :: t => (-1, t)
    | '+' :: t => (1, t)
    | t => (1, t)
  let ds := signAndRest.2.takeWhile Char.isDigit
  if ds.isEmpty then none
  else some (signAndRest.1 * (ds.foldl (fun a c => a * 10 + (c.toNat - '0'.toNat)) 0 : Nat))

/-- Model of `n.toString().padStart(4, '0')`. -/
def padStart4 (s : String) : String :=
  if 4 ≤ s.length then s else String.mk (List.replicate (4 - s.length) '0') ++ s

/-! ### The ticket-number allocator (POST / lines 79-102) -/

/-- Rows scanned by the allocator:
`SELECT ticket_number FROM tickets WHERE YEAR(created_at) = ?`. -/
def yearTickets (db : DB) (year : Nat) : List Ticket :=
  db.tickets.filter (fun t => t.created_year == year)

/-- Model of `ORDER BY ticket_number DESC LIMIT 1`: the lexicographically greatest
ticket number of the scanned rows, if any. -/
def maxTicketNumber (ts : List Ticket) : Option String :=
  ts.foldl
    (fun acc t =>
      match acc with
      | none => some t.ticket_number
      | some m => if strLtb m t.ticket_number then some t.ticket_number else some m)
    none

/-- Lines 92-100: next sequence value.  Start from 1; when a last row
exists with a truthy (non-empty) ticket_number, strip the first occurrence
of `TKT<year>` and `parseInt` the rest; on a parse failure (NaN) keep 1. -/
def nextCountFor (db : DB) (year : Nat) : Int :=
  match maxTicketNumber (yearTickets db year) with
  | some last =>
    if last ≠ "" then
      match jsParseInt (jsReplaceFirst last ("TKT" ++ toString year)) with
      | some p => p + 1
      | none => 1
    else 1
  | none => 1

/-- Line 102: the allocated ticket number. -/
def newTicketNumber (db : DB) (year : Nat) : String :=
  "TKT" ++ toString year ++ padStart4 (toString (nextCountFor db year))

/-- All ticket numbers currently stored; the schema declares
`ticket_number` UNIQUE, so an insert clashing with one of these raises
ER_DUP_ENTRY. -/
def ticketNumbers (db : DB) : List String :=
  db.tickets.map (fun t => t.ticket_number)

/-! ### POST / — create ticket (lines 43-143) -/

/-- Lines 63-71: the stored department.  Admin callers must supply a
truthy body department; every other caller gets their profile department,
any client-supplied value ignored. -/
def deptResolved (user : UserCtx) (body : CreateBody) : Option String :=
  if strLower user.role = "admin" then
    match body.department with
    | some d => if d = "" then none else some d
    | none => none
  else some user.department

/-- Outcome of a creation request. -/
inductive CreateOut
  | created (id : Nat) (ticket_number : String) (department : String)
  | badRequest
  | conflict
  | serverError
deriving DecidableEq

/-- Injected infrastructure failure inside the creation transaction. -/
inductive CreateFail
  | atTicketInsert
  | atAuditInsert
  | atCommit
deriving DecidableEq

/-- The creation handler.  Everything between `beginTransaction` and
`commit` is one transaction: an injected failure at any of the three
points rolls the whole transaction back (lines 132-136), and a duplicate
ticket number surfaces as ER_DUP_ENTRY, also after rollback (lines
138-140). -/
def createTicket (user : UserCtx) (body : CreateBody) (photo : Option String)
    (year now : Nat) (failAt : Option CreateFail) (db : DB) : CreateOut × DB :=
  match deptResolved user body with
  | none => (.badRequest, db)
  | some department =>
    let tn := newTicketNumber db year
    match failAt with
    | some _ => (.serverError, db)
    | none =>
      if tn ∈ ticketNumbers db then (.conflict, db)
      else
        let t : Ticket :=
          { id := db.nextTicketId
            ticket_number := tn
            department := department
            equipment_type := body.equipment_type
            problem_description := body.problem_description
            issue_date := body.issue_date
            photo_url := photo
            status := .pending
            created_by := user.id
            created_year := year
            created_at := now }
        let u : TicketUpdate :=
          { id := db.nextUpdateId
            ticket_id := db.nextTicketId
            user_id := user.id
            update_type := "status_change"
            old_value := none
            new_value := some "Pending"
            notes := some "Ticket created"
            created_at := now }
        (.created db.nextTicketId tn department,
          { db with
              tickets := t :: db.tickets
              updates := u :: db.updates
              nextTicketId := db.nextTicketId + 1
              nextUpdateId := db.nextUpdateId + 1 })

/-! ### GET / — list tickets (lines 146-215) -/

/-- Query-string parameters of the list request (absent = `undefined`). -/
structure ListQuery where
  status : Option String
  department : Option String
  search : Option String
  created_by : Option String
  page : Option String
  limit : Option String
deriving DecidableEq

/-- JS truthiness of an optional string: present and non-empty. -/
def truthy : Option String → Bool
  | some s => s ≠ ""
  | none => false

/-- Model of `Math.max(1, parseInt(q, 10) || d)`: the `|| d` catches both NaN and
0. -/
def intParamOr (q : Option String) (d : Int) : Int :=
  let v : Int :=
    match q with
    | some s =>
      match jsParseInt s with
      | some n => if n = 0 then d else n
      | none => d
    | none => d
  max 1 v

/-- Line 148. -/
def pageOf (q : ListQuery) : Int := intParamOr q.page 1

/-- Line 149. -/
def limitOf (q : ListQuery) : Int := intParamOr q.limit 10

/-- Model of `Number(s)` in JavaScript, restricted to the integral strings the
handler meets: after trimming, an optional sign followed only by digits
(non-integral or malformed strings give `none`, standing for NaN; the
handler only uses this behind a non-blank guard). -/
def jsNumber (s : String) : Option Int :=
  let t := jsTrim s
  if t = "" then some 0
  else
    let signAndRest : Int × List Char :=
      match t.data with
      | '-' :: r => (-1, r)
      | '+' :: r => (1, r)
      | r => (1, r)
    if signAndRest.2 ≠ [] && signAndRest.2.all Char.isDigit then
      some (signAndRest.1 * (signAndRest.2.foldl (fun a c => a * 10 + (c.toNat - '0'.toNat)) 0 : Nat))
    else none

/-- Lines 161-165: the admin-only `created_by` filter value, applied only
when the parameter is truthy, non-blank and numeric. -/
def adminCreatedBy (q : Option String) : Option Int :=
  match q with
  | some s =>
    if s ≠ "" && jsTrim s ≠ "" then
      match jsNumber s with
      | some v => some v
      | none => none
    else none
  | none => none

/-- Does `pat` occur as a contiguous substring of `s` (character lists)? -/
def occursIn (pat : List Char) : List Char → Bool
  | [] => pat.isPrefixOf ([] : List Char)
  | c :: cs => pat.isPrefixOf (c :: cs) || occursIn pat cs

/-- SQL `hay LIKE ?` with the parameter `%term%` (the handler inserts no
wildcards inside `term` itself): substring containment. -/
def likeContains (hay term : String) : Bool :=
  occursIn term.data hay.data

/-- Lines 153-184: the WHERE clause of the list query, as a predicate on a
ticket row.  Non-admin callers are always restricted to their own rows;
admins may filter by creator; `status`, `department` and `search` filters
apply only when truthy. -/
def rowMatches (user : UserCtx) (q : ListQuery) (t : Ticket) : Bool :=
  (if strLower user.role ≠ "admin" then t.created_by == user.id
   else
     match adminCreatedBy q.created_by with
     | some cb => ((t.created_by : Int) == cb)
     | none => true)
  && (match q.status with
      | some s => if s ≠ "" then t.status.toStr == s else true
      | none => true)
  && (match q.department with
      | some d => if d ≠ "" then t.department == d else true
      | none => true)
  && (match q.search with
      | some s =>
        if s ≠ "" && jsTrim s ≠ "" then
          let term := jsTrim s
          likeContains t.ticket_number term || likeContains t.problem_description term
            || likeContains t.equipment_type term || likeContains t.department term
        else true
      | none => true)

/-- Insertion step of the stable sort modelling ORDER BY. -/
def insertBy {α : Type} (r : α → α → Bool) (x : α) : List α → List α
  | [] => [x]
  | y :: ys => if r x y then x :: y :: ys else y :: insertBy r x ys

/-- Insertion sort by a Boolean relation (models SQL ORDER BY; only the
membership of the result matters to the statements below). -/
def sortBy {α : Type} (r : α → α → Bool) : List α → List α
  | [] => []
  | x :: xs => insertBy r x (sortBy r xs)

/-- Lines 184-201: filtered rows, `ORDER BY t.created_at DESC`, then
`LIMIT ? OFFSET ?` with offset `(page-1)*limit`. -/
def listTickets (user : UserCtx) (q : ListQuery) (db : DB) : List Ticket :=
  let filtered := db.tickets.filter (rowMatches user q)
  let sorted := sortBy (fun a b => decide (b.created_at ≤ a.created_at)) filtered
  let limit := (limitOf q).toNat
  let offset := ((pageOf q - 1) * limitOf q).toNat
  (sorted.drop offset).take limit

/-! ### Shared row lookup for the per-id routes -/

/-- Lookup `SELECT ... FROM tickets WHERE id = ?` (first matching row). -/
def findTicket (db : DB) (tid : Nat) : Option Ticket :=
  db.tickets.find? (fun t => t.id == tid)

/-- The per-id routes append `AND created_by = ?` exactly when
`req.user.role === 'user'` (lines 232, 335, 373, 409). -/
def visibleTo (user : UserCtx) (t : Ticket) : Bool :=
  user.role != "user" || t.created_by == user.id

/-- Row lookup of the per-id routes: id match plus the role-'user'
ownership filter. -/
def findVisible (db : DB) (user : UserCtx) (tid : Nat) : Option Ticket :=
  db.tickets.find? (fun t => t.id == tid && visibleTo user t)

/-- All audit rows of one ticket (its history). -/
def historyOf (db : DB) (tid : Nat) : List TicketUpdate :=
  db.updates.filter (fun u => u.ticket_id == tid)

/-- Primary-key invariant of the `tickets` table. -/
def IdsUnique (db : DB) : Prop :=
  db.tickets.Pairwise (fun a b => a.id ≠ b.id)

/-! ### GET /:id — single ticket with its updates (lines 218-262) -/

/-- The single-ticket view: the visible row, when found, together with its
updates ordered by `created_at DESC`. -/
def getTicket (user : UserCtx) (tid : Nat) (db : DB) :
    Option (Ticket × List TicketUpdate) :=
  match findVisible db user tid with
  | none => none
  | some t =>
    some (t, sortBy (fun a b => decide (b.created_at ≤ a.created_at)) (historyOf db tid))

/-! ### PUT /:id/status — update status (lines 265-314) -/

/-- Outcome of a status-change request. -/
inductive UpdOut
  | ok
  | notFound
  | closedErr
  | serverError
deriving DecidableEq

/-- Injected failure point: the UPDATE statement or the audit INSERT.
The two statements run directly on the pool, each autocommitting. -/
inductive UpdFail
  | atUpdate
  | atInsert
deriving DecidableEq

/-- Model of `UPDATE tickets SET status = ? WHERE id = ?`. -/
def setTicketStatus (ts : List Ticket) (tid : Nat) (st : Status) : List Ticket :=
  ts.map (fun t => if t.id == tid then { t with status := st } else t)

/-- The status-change handler.  The target status already passed the
validator (one of the five enum values), hence `Status`.  The route is
admin-gated by middleware; no ownership filter is applied in the lookup.
An injected failure of the UPDATE leaves the state untouched; an injected
failure of the audit INSERT leaves the already-committed UPDATE in place
(there is no surrounding transaction). -/
def updateStatus (user : UserCtx) (tid : Nat) (newStatus : Status)
    (notes : Option String) (now : Nat) (failAt : Option UpdFail) (db : DB) :
    UpdOut × DB :=
  match findTicket db tid with
  | none => (.notFound, db)
  | some t =>
    if t.status = .closed then (.closedErr, db)
    else
      match failAt with
      | some .atUpdate => (.serverError, db)
      | _ =>
        let db1 := { db with tickets := setTicketStatus db.tickets tid newStatus }
        match failAt with
        | some .atInsert => (.serverError, db1)
        | _ =>
          let u : TicketUpdate :=
            { id := db1.nextUpdateId
              ticket_id := tid
              user_id := user.id
              update_type := "status_change"
              old_value := some t.status.toStr
              new_value := some newStatus.toStr
              notes := notes
              created_at := now }
          (.ok, { db1 with updates := u :: db1.updates, nextUpdateId := db1.nextUpdateId + 1 })

/-! ### POST /:id/notes — add note (lines 317-362) -/

/-- Outcome of a note-addition request. -/
inductive NoteOut
  | ok
  | validationErr
  | notFound
  | closedErr
deriving DecidableEq

/-- The note handler: `notes` must be non-empty (validator), the row must
be visible to the caller, and the ticket must not be Closed; then a `note`
audit row is appended. -/
def addNote (user : UserCtx) (tid : Nat) (notes : String) (now : Nat) (db : DB) :
    NoteOut × DB :=
  if notes = "" then (.validationErr, db)
  else
    match findVisible db user tid with
    | none => (.notFound, db)
    | some t =>
      if t.status = .closed then (.closedErr, db)
      else
        let u : TicketUpdate :=
          { id := db.nextUpdateId
            ticket_id := tid
            user_id := user.id
            update_type := "note"
            old_value := none
            new_value := none
            notes := some notes
            created_at := now }
        (.ok, { db with updates := u :: db.updates, nextUpdateId := db.nextUpdateId + 1 })

/-! ### DELETE /:id — delete ticket (lines 401-443) -/

/-- Outcome of a deletion request. -/
inductive DelOut
  | ok
  | notFound
  | closedErr
  | serverError
deriving DecidableEq

/-- Model of `DELETE FROM tickets WHERE id = ?`; the `ticket_updates` rows follow by
the ON DELETE CASCADE of the schema. -/
def removeTicket (db : DB) (tid : Nat) : DB :=
  { db with
      tickets := db.tickets.filter (fun t => t.id != tid)
      updates := db.updates.filter (fun u => u.ticket_id != tid) }

/-- The deletion handler.  After the visibility lookup and the Closed
check, the handler first removes the photo file when the row references
one and the file exists (`fs.existsSync` guard); `fs.unlinkSync` runs
inside the same try block and before the DELETE statement, so an injected
unlink failure is caught by the handler and the DELETE never executes. -/
def deleteTicket (user : UserCtx) (tid : Nat) (unlinkFails : Bool) (db : DB) :
    DelOut × DB :=
  match findVisible db user tid with
  | none => (.notFound, db)
  | some t =>
    if t.status = .closed then (.closedErr, db)
    else
      match t.photo_url with
      | some u =>
        if u ∈ db.files then
          if unlinkFails then (.serverError, db)
          else
            (.ok, removeTicket { db with files := db.files.filter (fun f => f ≠ u) } tid)
        else (.ok, removeTicket db tid)
      | none => (.ok, removeTicket db tid)

/-! ### Concrete fixtures used by witnesses and counterexamples -/

/-- A regular (role `user`) caller. -/
def sampleUser : UserCtx := { id := 7, role := "user", department := "Sales" }

/-- An admin caller. -/
def sampleAdmin : UserCtx := { id := 1, role := "admin", department := "IT" }

/-- A caller whose role is `it`. -/
def itStaff : UserCtx := { id := 5, role := "it", department := "IT" }

/-- A creation body that also (vainly) supplies a department. -/
def sampleBody : CreateBody :=
  { department := some "Marketing", equipment_type := "PC"
    problem_description := "broken screen", issue_date := "2025-01-02" }

/-- The empty store. -/
def emptyDB : DB :=
  { tickets := [], updates := [], files := [], nextTicketId := 1, nextUpdateId := 1 }

/-- An open ticket of `sampleUser` with an uploaded photo. -/
def photoTicket : Ticket :=
  { id := 1, ticket_number := "TKT20250001", department := "Sales"
    equipment_type := "PC", problem_description := "p", issue_date := "2025-01-01"
    photo_url := some "/uploads/p.jpg", status := .pending, created_by := 7
    created_year := 2025, created_at := 1 }

/-- Store holding `photoTicket` and its photo file. -/
def photoDB : DB :=
  { tickets := [photoTicket], updates := [], files := ["/uploads/p.jpg"]
    nextTicketId := 2, nextUpdateId := 1 }

/-- The ticket `photoTicket` without a photo. -/
def plainTicket : Ticket := { photoTicket with photo_url := none }

/-- A closed ticket of `sampleUser`. -/
def closedTicket : Ticket := { plainTicket with status := .closed }

/-- Store holding one closed ticket and one audit row for it. -/
def closedDB : DB :=
  { tickets := [closedTicket]
    updates := [{ id := 1, ticket_id := 1, user_id := 1, update_type := "status_change"
                  old_value := some "Pending", new_value := some "Closed"
                  notes := none, created_at := 2 }]
    files := [], nextTicketId := 2, nextUpdateId := 2 }

/-- A year-2025 row whose number has a corrupt, non-numeric suffix; it is
the lexicographic maximum of the year (uppercase letters sort above
digits). -/
def corruptTicket : Ticket :=
  { plainTicket with id := 2, ticket_number := "TKT2025XXXX" }

/-- Store where the corrupt row is the allocator scan result while
`TKT20250001` is already taken. -/
def corruptDB : DB :=
  { tickets := [plainTicket, corruptTicket], updates := [], files := []
    nextTicketId := 3, nextUpdateId := 1 }

/-- A 2024 row that nevertheless holds the number `TKT20250002` (prior
corruption), invisible to the 2025 allocator scan but protected by the
UNIQUE constraint. -/
def oldYearTicket : Ticket :=
  { plainTicket with id := 2, ticket_number := "TKT20250002", created_year := 2024 }

/-- Store in which the 2025 allocator computes `TKT20250002`, a number the
2024 row already holds. -/
def dupDB : DB :=
  { tickets := [plainTicket, oldYearTicket], updates := [], files := []
    nextTicketId := 3, nextUpdateId := 1 }

/-- The list request with no filter parameters. -/
def noFilters : ListQuery :=
  { status := none, department := none, search := none, created_by := none
    page := none, limit := none }

/-! ### Helper lemmas -/

theorem mem_insertBy {α : Type} (r : α → α → Bool) (x a : α) :
    ∀ l : List α, a ∈ insertBy r x l → a = x ∨ a ∈ l := by
  intro l
  induction l with
  | nil => intro h; simp [insertBy] at h; exact Or.inl h
  | cons y ys ih =>
    intro h
    simp only [insertBy] at h
    split at h
    · rcases List.mem_cons.mp h with h | h
      · exact Or.inl h
      · exact Or.inr h
    · rcases List.mem_cons.mp h with h | h
      · exact Or.inr (List.mem_cons.mpr (Or.inl h))
      · rcases ih h with h | h
        · exact Or.inl h
        · exact Or.inr (List.mem_cons.mpr (Or.inr h))

theorem mem_sortBy {α : Type} (r : α → α → Bool) (a : α) :
    ∀ l : List α, a ∈ sortBy r l → a ∈ l := by
  intro l
  induction l with
  | nil => intro h; simp [sortBy] at h
  | cons x xs ih =>
    intro h
    simp only [sortBy] at h
    rcases mem_insertBy r x a _ h with h | h
    · exact h ▸ List.mem_cons_self x xs
    · exact List.mem_cons.mpr (Or.inr (ih h))

/-- When `find?` with predicate `p` returns `t`, adding a further
conjunct that holds at `t` does not change the result (rows before `t`
already fail `p`). -/
theorem find?_and_right {α : Type} (p q : α → Bool) (t : α) :
    ∀ l : List α, l.find? p = some t → q t = true →
      l.find? (fun x => p x && q x) = some t := by
  intro l
  induction l with
  | nil => intro h; simp [List.find?] at h
  | cons a as ih =>
    intro h hq
    by_cases hp : p a = true
    · rw [List.find?_cons_of_pos _ hp] at h
      injection h with h
      subst h
      exact List.find?_cons_of_pos _ (by simp [hp, hq])
    · have hpf : p a = false := by
        cases hpa : p a
        · rfl
        · exact absurd hpa hp
      rw [List.find?_cons_of_neg _ hp] at h
      rw [List.find?_cons_of_neg _ (by simp [hpf])]
      exact ih h hq

/-- The padded sequence suffix always has at least 4 digits. -/
theorem padStart4_length (s : String) : 4 ≤ (padStart4 s).length := by
  obtain ⟨l⟩ := s
  unfold padStart4
  split
  · assumption
  · rename_i h
    have hl : (String.mk (List.replicate (4 - (String.mk l).length) '0') ++ String.mk l).length
        = (4 - (String.mk l).length) + (String.mk l).length := by
      show (List.replicate (4 - (String.mk l).length) '0' ++ l).length = _
      simp [String.length]
    rw [hl]
    have : (String.mk l).length ≤ 4 := by omega
    omega

/-- Additional fixture: a store whose only 2025 row is the corrupt one, so
`TKT20250001` is free. -/
def corruptOnlyDB : DB :=
  { tickets := [corruptTicket], updates := [], files := []
    nextTicketId := 3, nextUpdateId := 1 }

/-! ### Claim theorems -/

/-- Claim C1: every successfully created ticket receives a number of the
form `TKT<year><seq>` with the sequence zero-padded to at least 4 digits;
the first ticket of a year receives sequence 1, and a subsequent ticket
receives exactly 1 plus the parse of the lexicographically greatest
stored number of that year after stripping the `TKT<year>` prefix. -/
theorem allocator_assigns_padded_increment
    (user : UserCtx) (body : CreateBody) (photo : Option String) (year now : Nat)
    (db db2 : DB) (i : Nat) (tn d : String)
    (h : createTicket user body photo year now none db = (.created i tn d, db2)) :
    tn = "TKT" ++ toString year ++ padStart4 (toString (nextCountFor db year))
    ∧ (yearTickets db year = [] → tn = "TKT" ++ toString year ++ "0001")
    ∧ (∀ last p, maxTicketNumber (yearTickets db year) = some last → last ≠ "" →
        jsParseInt (jsReplaceFirst last ("TKT" ++ toString year)) = some p →
        tn = "TKT" ++ toString year ++ padStart4 (toString (p + 1)))
    ∧ 4 ≤ (padStart4 (toString (nextCountFor db year))).length := by
  have htn : tn = newTicketNumber db year := by
    unfold createTicket at h
    cases hd : deptResolved user body with
    | none => rw [hd] at h; exact absurd h (by simp)
    | some dep =>
      rw [hd] at h
      simp only at h
      split at h
      · exact absurd h (by simp)
      · simp only [Prod.mk.injEq, CreateOut.created.injEq] at h
        exact h.1.2.1.symm
  refine ⟨htn, ?_, ?_, padStart4_length _⟩
  · intro hy
    have h1 : nextCountFor db year = 1 := by
      unfold nextCountFor; rw [hy]; rfl
    rw [htn]
    unfold newTicketNumber
    rw [h1, show padStart4 (toString (1 : Int)) = "0001" from by decide]
  · intro last p hm hne hp
    have h1 : nextCountFor db year = p + 1 := by
      unfold nextCountFor
      simp only [hm]
      rw [if_pos hne, hp]
    rw [htn]
    unfold newTicketNumber
    rw [h1]

/-- Witness for C1: the concrete first creation of year 2025 on the empty
store. -/
theorem allocator_assigns_padded_increment_witness :
    "TKT20250001" = "TKT" ++ toString 2025 ++ padStart4 (toString (nextCountFor emptyDB 2025))
    ∧ (yearTickets emptyDB 2025 = [] → "TKT20250001" = "TKT" ++ toString 2025 ++ "0001")
    ∧ (∀ last p, maxTicketNumber (yearTickets emptyDB 2025) = some last → last ≠ "" →
        jsParseInt (jsReplaceFirst last ("TKT" ++ toString 2025)) = some p →
        "TKT20250001" = "TKT" ++ toString 2025 ++ padStart4 (toString (p + 1)))
    ∧ 4 ≤ (padStart4 (toString (nextCountFor emptyDB 2025))).length :=
  allocator_assigns_padded_increment sampleUser sampleBody none 2025 3 emptyDB
    (createTicket sampleUser sampleBody none 2025 3 none emptyDB).2
    1 "TKT20250001" "Sales" (by decide)

/-- Claim C9: a creation whose computed number collides with a stored
ticket number fails with the distinct duplicate-conflict outcome (not the
generic server error) and leaves the store unchanged (full rollback, no
partial state). -/
theorem dup_commit_conflict_rollback
    (user : UserCtx) (body : CreateBody) (photo : Option String) (year now : Nat)
    (db : DB) (d : String)
    (hdept : deptResolved user body = some d)
    (hdup : newTicketNumber db year ∈ ticketNumbers db) :
    createTicket user body photo year now none db = (.conflict, db)
    ∧ CreateOut.conflict ≠ CreateOut.serverError := by
  constructor
  · unfold createTicket
    rw [hdept]
    simp only
    rw [if_pos hdup]
  · decide

/-- Witness for C9: the 2025 allocator recomputes `TKT20250002`, held by a
mis-dated 2024 row outside its scan; the creation returns the conflict
outcome with the store untouched. -/
theorem dup_commit_conflict_rollback_witness :
    createTicket sampleUser sampleBody none 2025 3 none dupDB = (.conflict, dupDB)
    ∧ CreateOut.conflict ≠ CreateOut.serverError :=
  dup_commit_conflict_rollback sampleUser sampleBody none 2025 3 dupDB "Sales"
    (by decide) (by decide)

/-- Claim C8 counterexample: with a corrupt (non-parsing) lexicographic
maximum for the year and `TKT20250001` already taken, the sequence does
default to 1 but the creation FAILS with the duplicate conflict — the
claim says the creation succeeds. -/
theorem parsefail_default_cex :
    nextCountFor corruptDB 2025 = 1
    ∧ (createTicket sampleUser sampleBody none 2025 3 none corruptDB).1 = CreateOut.conflict
    ∧ (createTicket sampleUser sampleBody none 2025 3 none corruptDB).2 = corruptDB := by
  decide

/-- Claim C8 as amended: an unparseable suffix of the year's greatest
number defaults the sequence to 1; the creation then succeeds exactly when
`TKT<year>0001` is not already a stored number, and otherwise fails with
the duplicate conflict. -/
theorem parsefail_defaults_to_one
    (user : UserCtx) (body : CreateBody) (photo : Option String) (year now : Nat)
    (db : DB) (last : String)
    (hrole : strLower user.role ≠ "admin")
    (hmax : maxTicketNumber (yearTickets db year) = some last)
    (hne : last ≠ "")
    (hparse : jsParseInt (jsReplaceFirst last ("TKT" ++ toString year)) = none) :
    nextCountFor db year = 1
    ∧ (("TKT" ++ toString year ++ "0001") ∉ ticketNumbers db →
        (createTicket user body photo year now none db).1
          = .created db.nextTicketId ("TKT" ++ toString year ++ "0001") user.department)
    ∧ (("TKT" ++ toString year ++ "0001") ∈ ticketNumbers db →
        createTicket user body photo year now none db = (.conflict, db)) := by
  have h1 : nextCountFor db year = 1 := by
    unfold nextCountFor
    simp only [hmax]
    rw [if_pos hne, hparse]
  have htn : newTicketNumber db year = "TKT" ++ toString year ++ "0001" := by
    unfold newTicketNumber
    rw [h1, show padStart4 (toString (1 : Int)) = "0001" from by decide]
  have hdept : deptResolved user body = some user.department := by
    unfold deptResolved
    rw [if_neg hrole]
  refine ⟨h1, ?_, ?_⟩
  · intro hmem
    unfold createTicket
    rw [hdept]
    simp only
    rw [htn, if_neg hmem]
  · intro hmem
    unfold createTicket
    rw [hdept]
    simp only
    rw [htn, if_pos hmem]

/-- Witness for the amended C8: the store whose only 2025 row is the
corrupt one; the creation succeeds with number `TKT20250001`. -/
theorem parsefail_defaults_to_one_witness :
    nextCountFor corruptOnlyDB 2025 = 1
    ∧ (("TKT" ++ toString 2025 ++ "0001") ∉ ticketNumbers corruptOnlyDB →
        (createTicket sampleUser sampleBody none 2025 3 none corruptOnlyDB).1
          = .created corruptOnlyDB.nextTicketId ("TKT" ++ toString 2025 ++ "0001")
              sampleUser.department)
    ∧ (("TKT" ++ toString 2025 ++ "0001") ∈ ticketNumbers corruptOnlyDB →
        createTicket sampleUser sampleBody none 2025 3 none corruptOnlyDB
          = (.conflict, corruptOnlyDB)) :=
  parsefail_defaults_to_one sampleUser sampleBody none 2025 3 corruptOnlyDB
    "TKT2025XXXX" (by decide) (by decide) (by decide) (by decide)

/-- Shared scoping lemma: the list route restricts every caller whose
lowercased role is not `admin` to rows they created. -/
theorem listTickets_scope (user : UserCtx) (q : ListQuery) (db : DB)
    (h : strLower user.role ≠ "admin") :
    ∀ t ∈ listTickets user q db, t.created_by = user.id := by
  intro t ht
  simp only [listTickets] at ht
  have h1 : t ∈ sortBy (fun a b => decide (b.created_at ≤ a.created_at))
      (db.tickets.filter (rowMatches user q)) :=
    List.drop_subset _ _ (List.take_subset _ _ ht)
  have h2 : t ∈ db.tickets.filter (rowMatches user q) := mem_sortBy _ _ _ h1
  have h3 : rowMatches user q t = true := (List.mem_filter.mp h2).2
  unfold rowMatches at h3
  rw [if_pos h] at h3
  simp only [Bool.and_eq_true, beq_iff_eq] at h3
  exact h3.1.1.1

/-- Claim C6: a non-admin caller listing tickets only ever receives rows
whose `created_by` is their own id, for every combination of the filter
parameters. -/
theorem nonadmin_list_only_own (user : UserCtx) (q : ListQuery) (db : DB)
    (h : strLower user.role ≠ "admin") :
    ∀ t ∈ listTickets user q db, t.created_by = user.id :=
  listTickets_scope user q db h

/-- Witness for C6: the concrete role-`user` caller against the one-ticket
store with no filters; the listed row is the caller's own. -/
theorem nonadmin_list_only_own_witness :
    photoTicket.created_by = sampleUser.id :=
  nonadmin_list_only_own sampleUser noFilters photoDB (by decide) photoTicket (by decide)

/-- Claim C5: for a non-admin caller the stored department is always the
caller's profile department; two creation requests differing only in the
client-supplied department behave identically. -/
theorem nonadmin_department_forced (user : UserCtx)
    (h : strLower user.role ≠ "admin") (b1 b2 : CreateBody)
    (he : b1.equipment_type = b2.equipment_type)
    (hp : b1.problem_description = b2.problem_description)
    (hi : b1.issue_date = b2.issue_date)
    (photo : Option String) (year now : Nat) (fa : Option CreateFail) (db : DB) :
    createTicket user b1 photo year now fa db = createTicket user b2 photo year now fa db
    ∧ (∀ i tn d db2, createTicket user b1 photo year now fa db = (.created i tn d, db2) →
        d = user.department
        ∧ ∃ t, db2.tickets = t :: db.tickets ∧ t.department = user.department) := by
  obtain ⟨d1, e1, p1, i1⟩ := b1
  obtain ⟨d2, e2, p2, i2⟩ := b2
  dsimp only at he hp hi
  subst he hp hi
  have hd1 : deptResolved user ⟨d1, e1, p1, i1⟩ = some user.department := by
    unfold deptResolved; rw [if_neg h]
  have hd2 : deptResolved user ⟨d2, e1, p1, i1⟩ = some user.department := by
    unfold deptResolved; rw [if_neg h]
  constructor
  · unfold createTicket
    rw [hd1, hd2]
  · intro i tn d db2 hc
    unfold createTicket at hc
    rw [hd1] at hc
    cases fa with
    | some f => exact absurd hc (by simp)
    | none =>
      simp only at hc
      split at hc
      · exact absurd hc (by simp)
      · simp only [Prod.mk.injEq, CreateOut.created.injEq] at hc
        obtain ⟨⟨hcid, hctn, hcd⟩, hcdb⟩ := hc
        subst hcdb
        exact ⟨hcd.symm, ⟨_, rfl, rfl⟩⟩

/-- Witness for C5: the concrete role-`user` caller with two bodies that
differ only in the submitted department. -/
theorem nonadmin_department_forced_witness :
    createTicket sampleUser sampleBody none 2025 3 none emptyDB
      = createTicket sampleUser { sampleBody with department := some "Finance" }
          none 2025 3 none emptyDB
    ∧ (∀ i tn d db2,
        createTicket sampleUser sampleBody none 2025 3 none emptyDB
          = (.created i tn d, db2) →
        d = sampleUser.department
        ∧ ∃ t, db2.tickets = t :: emptyDB.tickets
            ∧ t.department = sampleUser.department) :=
  nonadmin_department_forced sampleUser (by decide) sampleBody
    { sampleBody with department := some "Finance" } rfl rfl rfl
    none 2025 3 none emptyDB

/-- Claim C10: a caller with role `it` is treated as non-admin by the list
route (only their own rows come back) but passes the per-id ownership
filter, which only applies to role `user`: they can view, note and delete
a ticket created by anyone. -/
theorem it_role_scoping_asymmetry (user : UserCtx) (hrole : user.role = "it") :
    (∀ q db, ∀ t ∈ listTickets user q db, t.created_by = user.id)
    ∧ (∀ db tid t, findTicket db tid = some t →
        ∃ ups, getTicket user tid db = some (t, ups))
    ∧ (∀ db tid t notes now, findTicket db tid = some t → t.status ≠ .closed →
        notes ≠ "" → (addNote user tid notes now db).1 = .ok)
    ∧ (∀ db tid t, findTicket db tid = some t → t.status ≠ .closed →
        (deleteTicket user tid false db).1 = .ok) := by
  have hladmin : strLower user.role ≠ "admin" := by
    rw [hrole]; decide
  have hvis : ∀ t : Ticket, visibleTo user t = true := by
    intro t
    unfold visibleTo
    rw [hrole]
    simp [show (("it" : String) != "user") = true from by decide]
  have hfv : ∀ (db : DB) (tid : Nat) (t : Ticket),
      findTicket db tid = some t → findVisible db user tid = some t := by
    intro db tid t h
    unfold findTicket at h
    unfold findVisible
    exact find?_and_right (fun x => x.id == tid) (visibleTo user) t db.tickets h (hvis t)
  refine ⟨?_, ?_, ?_, ?_⟩
  · intro q db
    exact listTickets_scope user q db hladmin
  · intro db tid t h
    exact ⟨_, by unfold getTicket; rw [hfv db tid t h]⟩
  · intro db tid t notes now h hop hne
    unfold addNote
    rw [if_neg hne, hfv db tid t h]
    dsimp only
    rw [if_neg hop]
  · intro db tid t h hop
    unfold deleteTicket
    rw [hfv db tid t h]
    dsimp only
    rw [if_neg hop]
    cases hph : t.photo_url with
    | some u =>
      dsimp only
      split
      · rfl
      · rfl
    | none => rfl

/-- Witness for C10: the concrete `it`-role caller. -/
theorem it_role_scoping_asymmetry_witness :
    (∀ q db, ∀ t ∈ listTickets itStaff q db, t.created_by = itStaff.id)
    ∧ (∀ db tid t, findTicket db tid = some t →
        ∃ ups, getTicket itStaff tid db = some (t, ups))
    ∧ (∀ db tid t notes now, findTicket db tid = some t → t.status ≠ .closed →
        notes ≠ "" → (addNote itStaff tid notes now db).1 = .ok)
    ∧ (∀ db tid t, findTicket db tid = some t → t.status ≠ .closed →
        (deleteTicket itStaff tid false db).1 = .ok) :=
  it_role_scoping_asymmetry itStaff (by decide)

/-- Claim C2 counterexample: with the audit INSERT failing after the
status UPDATE already committed, the resulting store shows the new status
with no audit row at all — the two writes are not atomic (there is no
transaction around them in the handler). -/
theorem status_change_not_atomic_cex :
    (updateStatus sampleAdmin 1 .inProgress (some "work") 5 (some .atInsert) photoDB).1
      = UpdOut.serverError
    ∧ ((findTicket (updateStatus sampleAdmin 1 .inProgress (some "work") 5
        (some .atInsert) photoDB).2 1).map (fun t => t.status)) = some Status.inProgress
    ∧ historyOf (updateStatus sampleAdmin 1 .inProgress (some "work") 5
        (some .atInsert) photoDB).2 1 = [] := by
  decide

/-- Claim C2 as amended: the status UPDATE and the audit INSERT are two
separate autocommitted statements executed in order.  When both succeed,
the new status and the audit row both appear; a failure of the audit
INSERT leaves the already-committed status change in place without its
audit row; only a failure of the UPDATE itself leaves the store
unchanged. -/
theorem status_change_sequential_writes
    (user : UserCtx) (tid : Nat) (t : Ticket) (st : Status)
    (notes : Option String) (now : Nat) (db : DB)
    (hfind : findTicket db tid = some t) (hopen : t.status ≠ .closed) :
    updateStatus user tid st notes now none db
      = (.ok,
          { db with
              tickets := setTicketStatus db.tickets tid st
              updates :=
                { id := db.nextUpdateId, ticket_id := tid, user_id := user.id
                  update_type := "status_change", old_value := some t.status.toStr
                  new_value := some st.toStr, notes := notes, created_at := now }
                :: db.updates
              nextUpdateId := db.nextUpdateId + 1 })
    ∧ updateStatus user tid st notes now (some .atInsert) db
      = (.serverError, { db with tickets := setTicketStatus db.tickets tid st })
    ∧ updateStatus user tid st notes now (some .atUpdate) db = (.serverError, db) := by
  refine ⟨?_, ?_, ?_⟩ <;>
    · unfold updateStatus
      rw [hfind]
      dsimp only
      rw [if_neg hopen]

/-- Witness for the amended C2: the concrete admin status change on the
one-ticket store, at each failure point. -/
theorem status_change_sequential_writes_witness :
    updateStatus sampleAdmin 1 .inProgress (some "work") 5 none photoDB
      = (.ok,
          { photoDB with
              tickets := setTicketStatus photoDB.tickets 1 .inProgress
              updates :=
                { id := photoDB.nextUpdateId, ticket_id := 1, user_id := sampleAdmin.id
                  update_type := "status_change", old_value := some photoTicket.status.toStr
                  new_value := some (Status.inProgress).toStr, notes := some "work"
                  created_at := 5 }
                :: photoDB.updates
              nextUpdateId := photoDB.nextUpdateId + 1 })
    ∧ updateStatus sampleAdmin 1 .inProgress (some "work") 5 (some .atInsert) photoDB
      = (.serverError, { photoDB with tickets := setTicketStatus photoDB.tickets 1 .inProgress })
    ∧ updateStatus sampleAdmin 1 .inProgress (some "work") 5 (some .atUpdate) photoDB
      = (.serverError, photoDB) :=
  status_change_sequential_writes sampleAdmin 1 photoTicket .inProgress
    (some "work") 5 photoDB (by decide) (by decide)

/-- Claim C3: once a ticket is Closed, every status change is rejected
with the closed-ticket error, and every visible note addition or deletion
likewise; in each case the store — the ticket row and the entire audit
history — is returned exactly as it was. -/
theorem closed_ticket_immutable
    (db : DB) (tid : Nat) (t : Ticket)
    (hfind : findTicket db tid = some t) (hclosed : t.status = .closed) :
    (∀ user st notes now failAt,
        updateStatus user tid st notes now failAt db = (.closedErr, db))
    ∧ (∀ user notes now, notes ≠ "" → (user.role = "user" → t.created_by = user.id) →
        addNote user tid notes now db = (.closedErr, db))
    ∧ (∀ user uf, (user.role = "user" → t.created_by = user.id) →
        deleteTicket user tid uf db = (.closedErr, db)) := by
  have hvis : ∀ user : UserCtx, (user.role = "user" → t.created_by = user.id) →
      visibleTo user t = true := by
    intro user hw
    unfold visibleTo
    by_cases hr : user.role = "user"
    · rw [hw hr]
      simp
    · have hb : (user.role != "user") = true := bne_iff_ne.mpr hr
      simp [hb]
  have hfv : ∀ user : UserCtx, (user.role = "user" → t.created_by = user.id) →
      findVisible db user tid = some t := by
    intro user hw
    have h' := hfind
    unfold findTicket at h'
    unfold findVisible
    exact find?_and_right (fun x => x.id == tid) (visibleTo user) t db.tickets h' (hvis user hw)
  refine ⟨?_, ?_, ?_⟩
  · intro user st notes now failAt
    unfold updateStatus
    rw [hfind]
    dsimp only
    rw [if_pos hclosed]
  · intro user notes now hne hw
    unfold addNote
    rw [if_neg hne, hfv user hw]
    dsimp only
    rw [if_pos hclosed]
  · intro user uf hw
    unfold deleteTicket
    rw [hfv user hw]
    dsimp only
    rw [if_pos hclosed]

/-- Witness for C3: the concrete closed ticket in `closedDB`. -/
theorem closed_ticket_immutable_witness :
    (∀ user st notes now failAt,
        updateStatus user 1 st notes now failAt closedDB = (.closedErr, closedDB))
    ∧ (∀ user notes now, notes ≠ "" →
        (user.role = "user" → closedTicket.created_by = user.id) →
        addNote user 1 notes now closedDB = (.closedErr, closedDB))
    ∧ (∀ user uf, (user.role = "user" → closedTicket.created_by = user.id) →
        deleteTicket user 1 uf closedDB = (.closedErr, closedDB)) :=
  closed_ticket_immutable closedDB 1 closedTicket (by decide) (by decide)

/-- Claim C4: creation is transactional.  Any injected failure and any
non-created outcome return the store unchanged (full rollback, no partial
state); a successful creation appends exactly one ticket, which is
Pending, and exactly one audit row — a status_change with no old value,
new value "Pending" and notes "Ticket created" — and that row is the new
ticket's entire history. -/
theorem create_transactional_initial_audit
    (user : UserCtx) (body : CreateBody) (photo : Option String)
    (year now : Nat) (db : DB)
    (hfresh : ∀ u ∈ db.updates, u.ticket_id ≠ db.nextTicketId) :
    (∀ f, (createTicket user body photo year now (some f) db).2 = db)
    ∧ (∀ fa out db2, createTicket user body photo year now fa db = (out, db2) →
        (∀ i tn d, out ≠ .created i tn d) → db2 = db)
    ∧ (∀ i tn d db2,
        createTicket user body photo year now none db = (.created i tn d, db2) →
        ∃ t u, db2.tickets = t :: db.tickets ∧ db2.updates = u :: db.updates
          ∧ t.id = i ∧ t.status = .pending
          ∧ u.ticket_id = i ∧ u.update_type = "status_change"
          ∧ u.old_value = none ∧ u.new_value = some "Pending"
          ∧ u.notes = some "Ticket created"
          ∧ historyOf db2 i = [u]) := by
  refine ⟨?_, ?_, ?_⟩
  · intro f
    unfold createTicket
    cases hd : deptResolved user body with
    | none => rfl
    | some dep => rfl
  · intro fa out db2 hc hnot
    unfold createTicket at hc
    cases hd : deptResolved user body with
    | none =>
      rw [hd] at hc
      exact ((Prod.mk.injEq _ _ _ _).mp hc).2.symm
    | some dep =>
      rw [hd] at hc
      cases fa with
      | some f => exact ((Prod.mk.injEq _ _ _ _).mp hc).2.symm
      | none =>
        simp only at hc
        split at hc
        · exact ((Prod.mk.injEq _ _ _ _).mp hc).2.symm
        · exact absurd ((Prod.mk.injEq _ _ _ _).mp hc).1.symm (hnot _ _ _)
  · intro i tn d db2 hc
    unfold createTicket at hc
    cases hd : deptResolved user body with
    | none =>
      rw [hd] at hc
      exact absurd hc (by simp)
    | some dep =>
      rw [hd] at hc
      simp only at hc
      split at hc
      · exact absurd hc (by simp)
      · simp only [Prod.mk.injEq, CreateOut.created.injEq] at hc
        obtain ⟨⟨hcid, hctn, hcd⟩, hcdb⟩ := hc
        subst hcdb
        subst hcid
        have hnil : List.filter (fun u => u.ticket_id == db.nextTicketId) db.updates
            = [] := by
          apply List.filter_eq_nil_iff.mpr
          intro a ha
          have hne := hfresh a ha
          simp only [beq_iff_eq]
          exact hne
        refine ⟨_, _, rfl, rfl, rfl, rfl, rfl, rfl, rfl, rfl, rfl, ?_⟩
        unfold historyOf
        dsimp only
        simp [List.filter_cons, hnil]

/-- Witness for C4: the concrete first creation on the empty store. -/
theorem create_transactional_initial_audit_witness :
    (∀ f, (createTicket sampleUser sampleBody none 2025 3 (some f) emptyDB).2 = emptyDB)
    ∧ (∀ fa out db2, createTicket sampleUser sampleBody none 2025 3 fa emptyDB = (out, db2) →
        (∀ i tn d, out ≠ .created i tn d) → db2 = emptyDB)
    ∧ (∀ i tn d db2,
        createTicket sampleUser sampleBody none 2025 3 none emptyDB = (.created i tn d, db2) →
        ∃ t u, db2.tickets = t :: emptyDB.tickets ∧ db2.updates = u :: emptyDB.updates
          ∧ t.id = i ∧ t.status = .pending
          ∧ u.ticket_id = i ∧ u.update_type = "status_change"
          ∧ u.old_value = none ∧ u.new_value = some "Pending"
          ∧ u.notes = some "Ticket created"
          ∧ historyOf db2 i = [u]) :=
  create_transactional_initial_audit sampleUser sampleBody none 2025 3 emptyDB
    (by intro u hu; simp [emptyDB] at hu)

/-- Claim C7 counterexample: when the photo unlink itself fails, the
handler aborts with a server error before the DELETE statement runs — the
ticket survives, contradicting "removed whether ... its removal fails". -/
theorem delete_unlink_failure_cex :
    deleteTicket sampleUser 1 true photoDB = (.serverError, photoDB)
    ∧ findTicket photoDB 1 = some photoTicket := by
  decide

/-- Claim C7 as amended: for a visible, non-Closed ticket, an absent photo
(no reference, or file already missing) never blocks the database
deletion, and a successful unlink is followed by the deletion; but when
the unlink itself fails, the handler returns a server error before the
DELETE, leaving the ticket and its history in place.  A performed deletion
removes the row and (by cascade) its entire history. -/
theorem delete_photo_behavior
    (user : UserCtx) (tid : Nat) (t : Ticket) (db : DB)
    (hfind : findVisible db user tid = some t) (hopen : t.status ≠ .closed) :
    (t.photo_url = none → ∀ uf, deleteTicket user tid uf db = (.ok, removeTicket db tid))
    ∧ (∀ u, t.photo_url = some u → u ∉ db.files →
        ∀ uf, deleteTicket user tid uf db = (.ok, removeTicket db tid))
    ∧ (∀ u, t.photo_url = some u → u ∈ db.files →
        deleteTicket user tid false db
          = (.ok, removeTicket { db with files := db.files.filter (fun f => f ≠ u) } tid)
        ∧ deleteTicket user tid true db = (.serverError, db))
    ∧ findTicket (removeTicket db tid) tid = none
    ∧ historyOf (removeTicket db tid) tid = [] := by
  refine ⟨?_, ?_, ?_, ?_, ?_⟩
  · intro hph uf
    unfold deleteTicket
    rw [hfind]
    dsimp only
    rw [if_neg hopen, hph]
  · intro u hph hmem uf
    unfold deleteTicket
    rw [hfind]
    dsimp only
    rw [if_neg hopen, hph]
    dsimp only
    rw [if_neg hmem]
  · intro u hph hmem
    constructor
    · unfold deleteTicket
      rw [hfind]
      dsimp only
      rw [if_neg hopen, hph]
      dsimp only
      rw [if_pos hmem]
      rfl
    · unfold deleteTicket
      rw [hfind]
      dsimp only
      rw [if_neg hopen, hph]
      dsimp only
      rw [if_pos hmem]
      rfl
  · unfold findTicket removeTicket
    apply List.find?_eq_none.mpr
    intro x hx
    have hx2 : (x.id != tid) = true := (List.mem_filter.mp hx).2
    have hxne : x.id ≠ tid := bne_iff_ne.mp hx2
    simp only [beq_iff_eq]
    exact hxne
  · unfold historyOf removeTicket
    apply List.filter_eq_nil_iff.mpr
    intro a ha
    have ha2 : (a.ticket_id != tid) = true := (List.mem_filter.mp ha).2
    have hane : a.ticket_id ≠ tid := bne_iff_ne.mp ha2
    simp only [beq_iff_eq]
    exact hane

/-- Witness for the amended C7: the concrete photo-carrying ticket whose
file is present on disk. -/
theorem delete_photo_behavior_witness :
    (photoTicket.photo_url = none → ∀ uf,
        deleteTicket sampleUser 1 uf photoDB = (.ok, removeTicket photoDB 1))
    ∧ (∀ u, photoTicket.photo_url = some u → u ∉ photoDB.files →
        ∀ uf, deleteTicket sampleUser 1 uf photoDB = (.ok, removeTicket photoDB 1))
    ∧ (∀ u, photoTicket.photo_url = some u → u ∈ photoDB.files →
        deleteTicket sampleUser 1 false photoDB
          = (.ok, removeTicket
              { photoDB with files := photoDB.files.filter (fun f => f ≠ u) } 1)
        ∧ deleteTicket sampleUser 1 true photoDB = (.serverError, photoDB))
    ∧ findTicket (removeTicket photoDB 1) 1 = none
    ∧ historyOf (removeTicket photoDB 1) 1 = [] :=
  delete_photo_behavior sampleUser 1 photoTicket photoDB (by decide) (by decide)

end ITS
